import Mathlib

/-
  Shallow embedding of the dialogue/narrative engine of the Nightfall demo
  (source: classes.py, nightfall.py).

  Modelling conventions:
  - Python dialogue entries are JSON dicts; they are embedded as an inductive
    with one Option field per key the code reads ("type", "line", "speaker",
    "voice", "timer", "image", "command", "target", "choices").  A missing key
    is none.  The "choices" key holds a list; an absent key and an empty list
    are both falsy in Python and are both embedded as the empty list.
  - Machine floats (timer durations, frame delta times) are embedded as
    rationals; the code only adds, subtracts and compares them.
  - Rendering, audio playback and file I/O are side effects outside the state
    the claims speak about; the busy flag of the mixer is an input to each
    frame update, exactly as DialogueSystem.update reads pygame.mixer.get_busy.
-/

namespace Nightfall

/-- Python substring helper: charsPrefix n h decides whether n is a prefix of h. -/
def charsPrefix : List Char → List Char → Bool
  | [], _ => true
  | _ :: _, [] => false
  | a :: as, b :: bs => a = b && charsPrefix as bs

/-- Python substring helper: charsSub n h decides whether n occurs inside h. -/
def charsSub (needle hay : List Char) : Bool :=
  charsPrefix needle hay ||
    (match hay with
     | [] => false
     | _ :: t => charsSub needle t)

/-- Embedding of the Python test "needle in hay" on strings. -/
def strContains (hay needle : String) : Bool :=
  charsSub needle.toList hay.toList

/-- Embedding of Python list.insert(pos, x) for a non-negative pos:
    inserts at pos, clamping to an append when pos exceeds the length. -/
def pyInsert (l : List α) (pos : Nat) (x : α) : List α :=
  l.take pos ++ x :: l.drop pos

theorem pyInsert_length (l : List α) (pos : Nat) (x : α) :
    (pyInsert l pos x).length = l.length + 1 := by
  simp [pyInsert]
  omega

/-
  RelationshipTracker (classes.py lines 48-57): a single mutable integer score.
  The class exposes add and get_score; DialogueSystem.apply_choice reads the
  score through a get method (the in-flux naming is noted in the spec), so the
  engine-side view of an attached tracker is embedded below as an Option Int.
-/
structure RelationshipTracker where
  score : Int
deriving DecidableEq

def RelationshipTracker.add (t : RelationshipTracker) (amount : Int) : RelationshipTracker :=
  { score := t.score + amount }

def RelationshipTracker.get_score (t : RelationshipTracker) : Int :=
  t.score

/-
  ChoiceTimer (classes.py lines 62-90).
-/
structure ChoiceTimer where
  duration : ℚ
  time_left : ℚ
  active : Bool
deriving DecidableEq

/-- ChoiceTimer.__init__ -/
def ChoiceTimer.new (duration : ℚ) : ChoiceTimer :=
  { duration := duration, time_left := duration, active := false }

/-- ChoiceTimer.start -/
def ChoiceTimer.start (t : ChoiceTimer) : ChoiceTimer :=
  { t with time_left := t.duration, active := true }

/-- ChoiceTimer.update: decrements by dt when active; returns the expiry flag. -/
def ChoiceTimer.update (t : ChoiceTimer) (dt : ℚ) : ChoiceTimer × Bool :=
  if t.active then
    let tl := t.time_left - dt
    if tl ≤ 0 then ({ t with time_left := tl, active := false }, true)
    else ({ t with time_left := tl }, false)
  else (t, false)

/-- ChoiceTimer.reset -/
def ChoiceTimer.reset (t : ChoiceTimer) : ChoiceTimer :=
  { t with time_left := t.duration, active := false }

/-- ChoiceTimer.get_remaining -/
def ChoiceTimer.get_remaining (t : ChoiceTimer) : ℚ :=
  max 0 t.time_left

/-
  Dialogue entries.  An entry is a JSON dict; a choice option is a dict with
  keys text, points, target, target_positive, target_negative, branch and
  lock_condition (classes.py apply_choice / draw / handle_click).
-/
mutual
inductive Entry : Type where
  | mk : Option String → Option String → Option String → Option String →
         Option ℚ → Option String → Option String → Option String →
         List ChoiceOpt → Entry

inductive ChoiceOpt : Type where
  | mk : String → Option Int → Option String → Option String → Option String →
         List Entry → Option String → ChoiceOpt
end

/-- The "type" key of an entry dict. -/
def Entry.etype : Entry → Option String
  | .mk t _ _ _ _ _ _ _ _ => t

/-- The "line" key (dialogue text). -/
def Entry.line : Entry → Option String
  | .mk _ l _ _ _ _ _ _ _ => l

/-- The "speaker" key. -/
def Entry.speaker : Entry → Option String
  | .mk _ _ sp _ _ _ _ _ _ => sp

/-- The "voice" key. -/
def Entry.voice : Entry → Option String
  | .mk _ _ _ v _ _ _ _ _ => v

/-- The "timer" key (seconds for a timed choice). -/
def Entry.timer : Entry → Option ℚ
  | .mk _ _ _ _ tm _ _ _ _ => tm

/-- The "image" key of an image_screen entry. -/
def Entry.image : Entry → Option String
  | .mk _ _ _ _ _ im _ _ _ => im

/-- The "command" key (hide/show). -/
def Entry.command : Entry → Option String
  | .mk _ _ _ _ _ _ c _ _ => c

/-- The "target" key (command target, or scene_jump destination). -/
def Entry.target : Entry → Option String
  | .mk _ _ _ _ _ _ _ tg _ => tg

/-- The "choices" key of a choice entry. -/
def Entry.choices : Entry → List ChoiceOpt
  | .mk _ _ _ _ _ _ _ _ ch => ch

/-- Python truthiness of the entry dict: true when at least one key is present. -/
def Entry.truthy : Entry → Bool
  | .mk t l sp v tm im c tg ch =>
    t.isSome || l.isSome || sp.isSome || v.isSome || tm.isSome ||
      im.isSome || c.isSome || tg.isSome || !ch.isEmpty

/-- The "text" key of a choice option. -/
def ChoiceOpt.text : ChoiceOpt → String
  | .mk tx _ _ _ _ _ _ => tx

/-- The "points" key of a choice option. -/
def ChoiceOpt.points : ChoiceOpt → Option Int
  | .mk _ p _ _ _ _ _ => p

/-- The "target" key of a choice option. -/
def ChoiceOpt.target : ChoiceOpt → Option String
  | .mk _ _ tg _ _ _ _ => tg

/-- The "target_positive" key of a choice option. -/
def ChoiceOpt.target_positive : ChoiceOpt → Option String
  | .mk _ _ _ tp _ _ _ => tp

/-- The "target_negative" key of a choice option. -/
def ChoiceOpt.target_negative : ChoiceOpt → Option String
  | .mk _ _ _ _ tn _ _ => tn

/-- The "branch" key of a choice option (inline entry list, empty when absent). -/
def ChoiceOpt.branch : ChoiceOpt → List Entry
  | .mk _ _ _ _ _ b _ => b

/-- The "lock_condition" key of a choice option. -/
def ChoiceOpt.lock_condition : ChoiceOpt → Option String
  | .mk _ _ _ _ _ _ lc => lc

/-- The synthetic dict inserted by DialogueSystem.insert_scene_jump
    (classes.py lines 346-350). -/
def sceneJumpEntry (scene_id : String) : Entry :=
  .mk (some "scene_jump") none none none none none none (some scene_id) []

/-
  DialogueSystem (classes.py lines 117-562).  State fields that only feed
  rendering or audio are omitted: font, pos, color, current_voice (written,
  never read back by the logic), visible_characters and image_screen_surface
  (consumed only by draw).  The audio manager is represented by the busy flag
  passed to update; the ChoiceTimerClass constructor argument collapses to the
  boolean hasTimerClass (the class object is only tested for truthiness and
  called as a constructor).
-/
structure DialogueSystem where
  dialogue_lines : List Entry
  index : Nat
  current_line : Option Entry
  waiting : Bool
  /-- engine-side view of the attached relationship tracker: its integer score,
      or none when no tracker was passed (the GameManager wiring). -/
  relationship : Option Int
  hasTimerClass : Bool
  choice_timer : Option ChoiceTimer
  selected_choice : Option Nat
  /-- name_map entry for "Player" -/
  nmPlayer : String
  /-- name_map entry for "Partner" -/
  nmPartner : String
  image_screen_active : Bool

/-- DialogueSystem.__init__ (classes.py lines 124-159). -/
def DialogueSystem.init (lines : List Entry) (rel : Option Int) (hasTC : Bool) :
    DialogueSystem :=
  { dialogue_lines := lines, index := 0, current_line := none, waiting := false,
    relationship := rel, hasTimerClass := hasTC, choice_timer := none,
    selected_choice := none, nmPlayer := "Player", nmPartner := "Partner",
    image_screen_active := false }

/-- The expression "self.relationship.get() if self.relationship else 0"
    (classes.py lines 321, 482, 513). -/
def DialogueSystem.relValue (s : DialogueSystem) : Int :=
  match s.relationship with
  | some v => v
  | none => 0

/-- DialogueSystem.check_name_reveal (classes.py lines 161-175). -/
def DialogueSystem.checkNameReveal (s : DialogueSystem) (e : Entry) : DialogueSystem :=
  if e.truthy = false then s
  else
    let text := e.line.getD ""
    let speaker := e.speaker.getD ""
    let s1 := if speaker = "Player" ∧ strContains text "Vera" then
                { s with nmPlayer := "Vera" } else s
    if speaker = "Partner" ∧ strContains text "Ellie" then
      { s1 with nmPartner := "Ellie" } else s1

/-- DialogueSystem.start_line (classes.py lines 177-227): makes the entry at
    the cursor current, runs the name-reveal check, dispatches on the type
    discriminant and returns the new current entry (none when exhausted). -/
def DialogueSystem.startLine (s : DialogueSystem) : DialogueSystem × Option Entry :=
  match s.dialogue_lines.get? s.index with
  | none => ({ s with current_line := none }, none)
  | some e =>
    let s1 := { s with current_line := some e }
    let s2 := s1.checkNameReveal e
    let ty := e.etype.getD "line"
    if ty = "line" ∨ ty = "narration" then
      -- voice playback is requested from the audio manager here; that is an
      -- external side effect, not engine state
      ({ s2 with waiting := true }, some e)
    else if ty = "choice" then
      let s3 := match e.timer, s2.hasTimerClass with
        | some d, true => { s2 with choice_timer := some ((ChoiceTimer.new d).start) }
        | _, _ => s2
      ({ s3 with waiting := true, selected_choice := none }, some e)
    else if ty = "image_screen" then
      ({ s2 with image_screen_active := true, waiting := true }, some e)
    else
      -- unknown types (including scene_jump and command dicts): returned as-is
      (s2, some e)

/-- DialogueSystem.insert_scene_jump (classes.py lines 346-350). -/
def DialogueSystem.insertSceneJump (s : DialogueSystem) (scene_id : String) :
    DialogueSystem :=
  { s with dialogue_lines :=
      pyInsert s.dialogue_lines (s.index + 1) (sceneJumpEntry scene_id) }

/-- The branch-insertion loop of apply_choice (classes.py lines 340-344):
    for i, entry in enumerate(branch): dialogue_lines.insert(insert_pos + i, entry). -/
def insertBranchLoop (lines : List Entry) (pos : Nat) : List Entry → List Entry
  | [] => lines
  | e :: rest => insertBranchLoop (pyInsert lines pos e) (pos + 1) rest

/-- DialogueSystem.apply_choice (classes.py lines 309-344). -/
def DialogueSystem.applyChoice (s : DialogueSystem) (ci : Nat) : DialogueSystem :=
  match s.current_line with
  | none => s  -- callers only invoke this with a current choice line
  | some cl =>
    match cl.choices.get? ci with
    | none => s  -- "if choice_index >= len(choices): return"
    | some c =>
      let pts := c.points.getD 0
      let s1 := { s with relationship := s.relationship.map (· + pts) }
      let rv := s1.relValue
      match c.target with
      | some tgt => s1.insertSceneJump tgt
      | none =>
        match c.target_positive, c.target_negative with
        | some tp, some tn =>
          if rv ≥ 0 then s1.insertSceneJump tp else s1.insertSceneJump tn
        | _, _ =>
          -- "if branch and isinstance(branch, list)": empty/absent is falsy
          if c.branch.isEmpty then s1
          else { s1 with dialogue_lines :=
                   insertBranchLoop s1.dialogue_lines (s1.index + 1) c.branch }

/-- DialogueSystem.update (classes.py lines 253-293); busy is the value of
    pygame.mixer.get_busy() during this frame. -/
def DialogueSystem.update (s : DialogueSystem) (dt : ℚ) (busy : Bool) :
    DialogueSystem × Option Entry :=
  match s.current_line with
  | none => (s, none)
  | some cl =>
    let ty := cl.etype.getD "line"
    if (ty = "line" ∨ ty = "narration") ∧ s.waiting = true ∧ busy = false then
      DialogueSystem.startLine { s with waiting := false, index := s.index + 1 }
    else if ty = "choice" then
      match s.choice_timer with
      | some tm =>
        let p := tm.update dt
        if p.2 = true then
          let s1 := if s.selected_choice.isNone then
                      DialogueSystem.applyChoice { s with selected_choice := some 0 } 0
                    else s
          DialogueSystem.startLine { s1 with choice_timer := none, index := s1.index + 1 }
        else ({ s with choice_timer := some p.1 }, none)
      | none => (s, none)
    else
      -- image_screen (waits for a click) and all other types: no frame effect
      (s, none)

/-- DialogueSystem.click_choice (classes.py lines 296-306). -/
def DialogueSystem.clickChoice (s : DialogueSystem) (ci : Nat) :
    DialogueSystem × Option Entry :=
  match s.current_line with
  | none => (s, none)
  | some cl =>
    if cl.etype = some "choice" then
      let s1 := { s with selected_choice := some ci }
      let s2 := s1.applyChoice ci
      -- a running timer is deactivated and then dropped
      DialogueSystem.startLine { s2 with choice_timer := none, index := s2.index + 1 }
    else (s, none)

/-- DialogueSystem.click (classes.py lines 532-554).  pos_given states whether
    a mouse position was passed; resolved abstracts handle_click (classes.py
    lines 499-530), whose pixel-geometry hit test plus lock_condition gating
    either selects an option index or selects nothing. -/
def DialogueSystem.click (s : DialogueSystem) (pos_given : Bool)
    (resolved : Option Nat) : DialogueSystem × Option Entry :=
  match s.current_line with
  | none => (s, none)
  | some cl =>
    let ty := cl.etype.getD "line"
    if s.image_screen_active = true then
      DialogueSystem.startLine { s with image_screen_active := false, index := s.index + 1 }
    else if ty = "choice" ∧ pos_given = true then
      match resolved with
      | some i => s.clickChoice i
      | none => (s, none)
    else
      DialogueSystem.startLine { s with index := s.index + 1 }

/-
  Scene (classes.py lines 95-112): the background surface, character sprites
  and music path are render/audio resources; the logic-relevant state is the
  scene id and the dialogue entry list parsed from the scene JSON.
-/
structure Scene where
  id : Option String
  dialogue : List Entry

/-- Python truthiness of the Optional entry returned by start_line/update/click:
    None and the empty dict are falsy. -/
def truthyOpt : Option Entry → Bool
  | some e => e.truthy
  | none => false

/-
  GameManager (classes.py lines 567-659).  screen, audio manager and font are
  render/audio collaborators; play_scene_music only touches the mixer.
-/
structure GameManager where
  scenes : List Scene
  relationship_tracker : RelationshipTracker
  current_scene_index : Nat
  current_scene : Scene
  dialogue_system : DialogueSystem
  current_line : Option Entry
  active : Bool

/-- GameManager.__init__ (classes.py lines 569-588): scenes[0] becomes current;
    the DialogueSystem is built WITHOUT the relationship tracker and WITHOUT a
    choice timer class (both parameters are left at their None defaults). -/
def GameManager.init (first : Scene) (rest : List Scene)
    (tracker : RelationshipTracker) : GameManager :=
  let p := (DialogueSystem.init first.dialogue none false).startLine
  { scenes := first :: rest, relationship_tracker := tracker,
    current_scene_index := 0, current_scene := first,
    dialogue_system := p.1, current_line := p.2, active := true }

/-- GameManager.next_scene (classes.py lines 627-640): purely positional
    advance through the preloaded list; the fresh DialogueSystem again gets
    neither the tracker nor a timer class. -/
def GameManager.nextScene (gm : GameManager) : GameManager :=
  let i := gm.current_scene_index + 1
  match gm.scenes.get? i with
  | none => { gm with current_scene_index := i, active := false }
  | some sc =>
    let p := (DialogueSystem.init sc.dialogue none false).startLine
    { gm with
        current_scene_index := i, current_scene := sc,
        dialogue_system := p.1, current_line := p.2 }

/-- GameManager.update (classes.py lines 601-610).  Note the Python guard
    "if new_line:" — a None (or empty-dict) result leaves current_line as it
    was, so current_line never returns to None once a line has been shown. -/
def GameManager.update (gm : GameManager) (dt : ℚ) (busy : Bool) : GameManager :=
  if gm.active = false then gm
  else
    let gm1 := if gm.current_line.isNone then gm.nextScene else gm
    let p := gm1.dialogue_system.update dt busy
    { gm1 with
        dialogue_system := p.1,
        current_line := if truthyOpt p.2 then p.2 else gm1.current_line }

/-- GameManager.handle_event for a mouse click (classes.py lines 621-625):
    forwards the position to DialogueSystem.click and keeps current_line under
    the same truthiness guard. -/
def GameManager.click (gm : GameManager) (resolved : Option Nat) : GameManager :=
  let p := gm.dialogue_system.click true resolved
  { gm with
      dialogue_system := p.1,
      current_line := if truthyOpt p.2 then p.2 else gm.current_line }

/-
  Trace instrumentation used by the theorems.
-/

/-- One frame of the driving loop at DialogueSystem level: dt plus the mixer
    busy flag for this frame. -/
def dsRun (s : DialogueSystem) (inputs : List (ℚ × Bool)) : DialogueSystem :=
  inputs.foldl (fun s p => (s.update p.1 p.2).1) s

/-- Whether a call update(dt) takes the timer-expiry default path on state s:
    the current line is a choice, a timer is attached, this tick expires it and
    no option was selected yet — exactly the conditions of classes.py 278-283. -/
def defaultFired (s : DialogueSystem) (dt : ℚ) : Bool :=
  match s.current_line, s.choice_timer with
  | some cl, some tm =>
    decide (cl.etype.getD "line" = "choice") && (tm.update dt).2 &&
      s.selected_choice.isNone
  | _, _ => false

/-- Number of frames of the input trace on which the default option 0 is
    applied while the cursor sits at index i0. -/
def countDefaults (i0 : Nat) : DialogueSystem → List (ℚ × Bool) → Nat
  | _, [] => 0
  | s, p :: rest =>
    (if defaultFired s p.1 = true ∧ s.index = i0 then 1 else 0) +
      countDefaults i0 (s.update p.1 p.2).1 rest

/-- Engine-level operations a playthrough can perform on one DialogueSystem. -/
inductive DSOp : Type where
  | frame (dt : ℚ) (busy : Bool)
  | selectOpt (i : Nat)
  | clickAt (pos_given : Bool) (resolved : Option Nat)

def DSOp.app (s : DialogueSystem) : DSOp → DialogueSystem
  | .frame dt b => (s.update dt b).1
  | .selectOpt i => (s.clickChoice i).1
  | .clickAt pg r => (s.click pg r).1

/-- Manager-level operations the game loop can perform. -/
inductive GMOp : Type where
  | frame (dt : ℚ) (busy : Bool)
  | clickAt (resolved : Option Nat)
  | scene

def GMOp.app (gm : GameManager) : GMOp → GameManager
  | .frame dt b => gm.update dt b
  | .clickAt r => gm.click r
  | .scene => gm.nextScene

/-- Timer-level operations (ChoiceTimer public interface). -/
inductive TimerOp : Type where
  | start
  | reset
  | tick (dt : ℚ)

def TimerOp.app (t : ChoiceTimer) : TimerOp → ChoiceTimer
  | .start => t.start
  | .reset => t.reset
  | .tick dt => (t.update dt).1

/-- Validity of a timer operation: frame delta times are non-negative. -/
def TimerOp.wf : TimerOp → Prop
  | .tick dt => 0 ≤ dt
  | _ => True

/-- Runs a ChoiceTimer over a list of tick deltas, collecting the expiry flag
    reported by each update call. -/
def timerRun : ChoiceTimer → List ℚ → ChoiceTimer × List Bool
  | t, [] => (t, [])
  | t, d :: ds =>
    let p := t.update d
    let q := timerRun p.1 ds
    (q.1, p.2 :: q.2)

/-
  Concrete scripts and runs used by the end-to-end theorems.
-/

/-- The narration entry of the spec's end-to-end scenario. -/
def nHello : Entry := .mk (some "narration") (some "Hello") none none none none none none []

/-- Option A of the scenario: text "A", 5 points, target "sceneB". -/
def cOptA : ChoiceOpt := .mk "A" (some 5) (some "sceneB") none none [] none

/-- Option B of the scenario: text "B", -5 points, target "sceneC". -/
def cOptB : ChoiceOpt := .mk "B" (some (-5)) (some "sceneC") none none [] none

/-- The choice entry of the scenario. -/
def cEntryAB : Entry := .mk (some "choice") none none none none none none none [cOptA, cOptB]

def scA : Scene := { id := some "sceneA", dialogue := [nHello, cEntryAB] }
def scB : Scene := { id := some "sceneB", dialogue := [nHello] }
def scC : Scene := { id := some "sceneC", dialogue := [nHello] }

/-- The scenario of claim C1 driven through the game loop: load the scene,
    let the narration advance on a frame with no voice playing, click option
    index 0, click once more past the inserted scene_jump entry, then keep
    running frames. -/
def c1Run : GameManager :=
  let g0 := GameManager.init scA [scB, scC] { score := 0 }
  let g1 := g0.update 1 false
  let g2 := g1.click (some 0)
  let g3 := g2.click none
  ((g3.update 1 false).update 1 false).update 1 false

/-- A choice whose only option jumps to "sceneGamma". -/
def jOpt : ChoiceOpt := .mk "Go" none (some "sceneGamma") none none [] none
def jChoice : Entry := .mk (some "choice") none none none none none none none [jOpt]

def scAlpha : Scene := { id := some "sceneAlpha", dialogue := [jChoice] }
def scBeta : Scene := { id := some "sceneBeta", dialogue := [nHello] }
def scGamma : Scene := { id := some "sceneGamma", dialogue := [nHello] }

/-- Claim C2's run: select the jump option of the first scene, so that the
    engine's cursor reaches the freshly inserted scene_jump entry. -/
def c2Run : GameManager :=
  (GameManager.init scAlpha [scBeta, scGamma] { score := 0 }).click (some 0)

/-- An entry with an unknown type discriminant and no other keys. -/
def futureEntry : Entry := .mk (some "future_feature") none none none none none none none []

/-- Engine state showing futureEntry, for claim C8. -/
def c8State : DialogueSystem :=
  ((DialogueSystem.init [futureEntry, nHello] none false).startLine).1

/-- A line whose speaker "Player" says a text containing "Vera": a name-reveal
    trigger (classes.py line 172). -/
def lineVera : Entry :=
  .mk (some "line") (some "I am Vera.") (some "Player") none none none none none []

def scReveal : Scene := { id := some "s1", dialogue := [lineVera] }
def scAfter : Scene := { id := some "s2", dialogue := [nHello] }

/-- Claim C9's run: the first scene's only line triggers the reveal. -/
def c9Run : GameManager :=
  GameManager.init scReveal [scAfter] { score := 0 }

/-
  Helper lemmas about pyInsert and list splicing.
-/

theorem take_len_append_cons (l₁ l₂ : List α) (x : α) :
    (l₁ ++ x :: l₂).take (l₁.length + 1) = l₁ ++ [x] := by
  induction l₁ with
  | nil => simp
  | cons a as ih => simp [ih]

theorem drop_len_append_cons (l₁ l₂ : List α) (x : α) :
    (l₁ ++ x :: l₂).drop (l₁.length + 1) = l₂ := by
  induction l₁ with
  | nil => simp
  | cons a as ih => simp [ih]

theorem getElem?_append_lt (l₁ l₂ : List α) (n i : Nat) (h : l₁.length = n)
    (hi : i < n) : (l₁ ++ l₂)[i]? = l₁[i]? := by
  subst h; exact List.getElem?_append_left hi

theorem getElem?_append_ge (l₁ l₂ : List α) (n i : Nat) (h : l₁.length = n)
    (hi : n ≤ i) : (l₁ ++ l₂)[i]? = l₂[i - n]? := by
  subst h; exact List.getElem?_append_right hi

theorem drop_of_len_append (l₁ l₂ : List α) (n : Nat) (h : l₁.length = n) :
    (l₁ ++ l₂).drop n = l₂ := by
  subst h; exact List.drop_left l₁ l₂

/-- The insertion loop of apply_choice is the splice
    take pos ++ branch ++ drop pos whenever pos is in range. -/
theorem insertBranchLoop_splice (b : List Entry) :
    ∀ (lines : List Entry) (pos : Nat), pos ≤ lines.length →
      insertBranchLoop lines pos b = lines.take pos ++ b ++ lines.drop pos := by
  induction b with
  | nil => intro lines pos _; simp [insertBranchLoop]
  | cons e rest ih =>
    intro lines pos h
    rw [insertBranchLoop]
    have h2 : pos + 1 ≤ (pyInsert lines pos e).length := by
      rw [pyInsert_length]; omega
    rw [ih _ _ h2]
    have htl : (lines.take pos).length = pos := by
      simp [List.length_take]; omega
    have t1 := take_len_append_cons (lines.take pos) (lines.drop pos) e
    have t2 := drop_len_append_cons (lines.take pos) (lines.drop pos) e
    rw [htl] at t1 t2
    rw [pyInsert, t1, t2]
    simp

/-- Claim C5: splicing k branch entries after cursor i (the loop of
    apply_choice, classes.py 340-344) inserts them at i+1 in order, leaves the
    entry at the cursor unchanged, and shifts the old entry at i+1 to i+1+k. -/
theorem c5_branch_splice (lines : List Entry) (i : Nat) (b : List Entry)
    (h : i < lines.length) :
    (insertBranchLoop lines (i + 1) b)[i]? = lines[i]? ∧
    ((insertBranchLoop lines (i + 1) b).drop (i + 1)).take b.length = b ∧
    (insertBranchLoop lines (i + 1) b)[i + 1 + b.length]? = lines[i + 1]? := by
  have hle : i + 1 ≤ lines.length := h
  rw [insertBranchLoop_splice _ _ _ hle]
  have htl : (lines.take (i + 1)).length = i + 1 := by
    simp [List.length_take]; omega
  refine ⟨?_, ?_, ?_⟩
  · rw [List.append_assoc, getElem?_append_lt _ _ (i + 1) i htl (by omega),
      List.getElem?_take, if_pos (by omega)]
  · rw [List.append_assoc, drop_of_len_append _ _ (i + 1) htl, List.take_left]
  · rw [List.append_assoc, getElem?_append_ge _ _ (i + 1) (i + 1 + b.length) htl (by omega),
      show i + 1 + b.length - (i + 1) = b.length from by omega,
      getElem?_append_ge _ _ b.length b.length rfl (le_refl _),
      Nat.sub_self, List.getElem?_drop]

/-- Witness for c5_branch_splice at a concrete document and branch. -/
theorem c5_branch_splice_witness :
    (insertBranchLoop [nHello, cEntryAB] 1 [futureEntry, lineVera])[0]? = some nHello ∧
    ((insertBranchLoop [nHello, cEntryAB] 1 [futureEntry, lineVera]).drop 1).take 2 =
      [futureEntry, lineVera] ∧
    (insertBranchLoop [nHello, cEntryAB] 1 [futureEntry, lineVera])[3]? = some cEntryAB := by
  have h := c5_branch_splice [nHello, cEntryAB] 0 [futureEntry, lineVera] (by simp)
  simpa using h

/-
  ChoiceTimer behaviour over tick traces (claims C3 and C4).
-/

/-- An inactive timer never changes and never reports expiry. -/
theorem timerRun_inactive (dts : List ℚ) :
    ∀ t : ChoiceTimer, t.active = false →
      timerRun t dts = (t, dts.map fun _ => false) := by
  induction dts with
  | nil => intro t _; simp [timerRun]
  | cons d ds ih =>
    intro t ht
    simp [timerRun, ChoiceTimer.update, ht, ih t ht]

/-- Core expiry lemma: a running timer with positive time_left r reports
    expiry exactly once over a non-negative tick trace iff the trace sums to
    at least r, and the report happens on the tick whose cumulative sum first
    reaches r. -/
theorem timerRun_crossing (dts : List ℚ) :
    ∀ t : ChoiceTimer, t.active = true → 0 < t.time_left →
      (∀ x ∈ dts, 0 ≤ x) →
      ((timerRun t dts).2.count true = if t.time_left ≤ dts.sum then 1 else 0) ∧
      (∀ j, j < dts.length →
        ((timerRun t dts).2[j]? = some true ↔
          t.time_left ≤ (dts.take (j + 1)).sum ∧ (dts.take j).sum < t.time_left)) := by
  induction dts with
  | nil =>
    intro t _ h0 _
    refine ⟨?_, ?_⟩
    · rw [if_neg (by simpa using by linarith)]
      simp [timerRun]
    · intro j hj; simp at hj
  | cons d ds ih =>
    intro t ha h0 hnn
    have hd : 0 ≤ d := hnn d (by simp)
    have hnn' : ∀ x ∈ ds, 0 ≤ x := fun x hx => hnn x (by simp [hx])
    have hsum' : 0 ≤ ds.sum := List.sum_nonneg hnn'
    by_cases hc : t.time_left - d ≤ 0
    · -- the first tick already crosses zero
      have hupd : t.update d =
          ({ t with time_left := t.time_left - d, active := false }, true) := by
        simp [ChoiceTimer.update, ha, hc]
      have hrest := timerRun_inactive ds
        { t with time_left := t.time_left - d, active := false } rfl
      refine ⟨?_, ?_⟩
      · rw [if_pos (by simp; linarith)]
        simp [timerRun, hupd, hrest, List.count_eq_zero]
      · intro j hj
        match j with
        | 0 =>
          simp only [timerRun, hupd, hrest]
          simp [List.take]
          all_goals constructor <;> linarith
        | Nat.succ m =>
          simp only [timerRun, hupd, hrest]
          have hm : m < ds.length := by simpa using hj
          have htm : 0 ≤ (ds.take m).sum :=
            List.sum_nonneg fun x hx => hnn' x (List.mem_of_mem_take hx)
          simp [hm]
          intro hle
          linarith
    · -- the timer keeps running with time_left - d
      have hupd : t.update d = ({ t with time_left := t.time_left - d }, false) := by
        simp [ChoiceTimer.update, ha, hc]
      have ih' := ih { t with time_left := t.time_left - d } ha (by simp; linarith) hnn'
      refine ⟨?_, ?_⟩
      · simp only [timerRun, hupd]
        rw [List.count_cons_of_ne (by simp)]
        rw [ih'.1]
        simp only [List.sum_cons]
        by_cases hcross : t.time_left - d ≤ ds.sum
        · rw [if_pos hcross, if_pos (by linarith)]
        · rw [if_neg hcross, if_neg (fun h => hcross (by linarith))]
      · intro j hj
        match j with
        | 0 =>
          simp only [timerRun, hupd]
          simp [List.take]
          intro hle
          linarith
        | Nat.succ m =>
          have hm : m < ds.length := by simpa using hj
          have hiff := ih'.2 m hm
          dsimp only at hiff
          simp only [timerRun, hupd]
          simp only [List.getElem?_cons_succ, List.take_succ_cons, List.sum_cons]
          rw [hiff]
          constructor
          · rintro ⟨h1, h2⟩; exact ⟨by linarith, by linarith⟩
          · rintro ⟨h1, h2⟩; exact ⟨by linarith, by linarith⟩

/-- Claim C3: a started timer with positive duration, ticked with non-negative
    deltas, reports expiry exactly once when the deltas sum to the duration or
    beyond — on the first tick whose cumulative sum reaches the duration — and
    on no other tick (classes.py 70-81). -/
theorem c3_timer_expires_once (t : ChoiceTimer) (hd : 0 < t.duration)
    (dts : List ℚ) (hnn : ∀ x ∈ dts, 0 ≤ x) :
    ((timerRun t.start dts).2.count true =
        if t.duration ≤ dts.sum then 1 else 0) ∧
    (∀ j, j < dts.length →
      ((timerRun t.start dts).2[j]? = some true ↔
        t.duration ≤ (dts.take (j + 1)).sum ∧ (dts.take j).sum < t.duration)) := by
  have h := timerRun_crossing dts t.start rfl (by simpa [ChoiceTimer.start] using hd) hnn
  simpa [ChoiceTimer.start] using h

/-- Witness for c3_timer_expires_once: duration 2, ticks 1, 1/2, 1 — the
    third tick crosses and is the only expiry report. -/
theorem c3_timer_expires_once_witness :
    (timerRun ((ChoiceTimer.new 2).start) [1, 1/2, 1]).2.count true = 1 ∧
    (timerRun ((ChoiceTimer.new 2).start) [1, 1/2, 1]).2[2]? = some true := by
  have h := c3_timer_expires_once (ChoiceTimer.new 2) (by norm_num [ChoiceTimer.new])
    [1, 1/2, 1] (by intro x hx; fin_cases hx <;> norm_num)
  refine ⟨?_, ?_⟩
  · have h1 := h.1
    norm_num [ChoiceTimer.new] at h1
    exact h1
  · have h2 := (h.2 2 (by norm_num)).2
    apply h2
    norm_num [ChoiceTimer.new]

/-- Counterexample to claim C4 as stated: the stored remaining time
    (ChoiceTimer.time_left) dips below 0 on the tick that overshoots the
    duration — duration 2, start, a single tick of 5 (a legal non-negative
    delta) leaves time_left at -3, violating 0 <= remaining on the state. -/
theorem c4_counterexample :
    (((ChoiceTimer.new 2).start.update 5).1.time_left = -3) ∧
    ¬ (0 ≤ ((ChoiceTimer.new 2).start.update 5).1.time_left) := by
  constructor
  · norm_num [ChoiceTimer.new, ChoiceTimer.start, ChoiceTimer.update]
  · norm_num [ChoiceTimer.new, ChoiceTimer.start, ChoiceTimer.update]

/-- Invariant of any ChoiceTimer operation sequence: the duration is constant
    and time_left never exceeds it (given non-negative tick deltas). -/
theorem timer_fold_invariant (d : ℚ) (ops : List TimerOp) :
    ∀ t : ChoiceTimer, t.duration = d → t.time_left ≤ d →
      (∀ o ∈ ops, o.wf) →
      (ops.foldl TimerOp.app t).duration = d ∧
      (ops.foldl TimerOp.app t).time_left ≤ d := by
  induction ops with
  | nil => intro t h1 h2 _; exact ⟨h1, h2⟩
  | cons o os ih =>
    intro t h1 h2 hwf
    have hwf' : ∀ o ∈ os, TimerOp.wf o := fun o ho => hwf o (by simp [ho])
    have ho : o.wf := hwf o (by simp)
    apply ih
    · cases o with
      | start => simpa [TimerOp.app, ChoiceTimer.start] using h1
      | reset => simpa [TimerOp.app, ChoiceTimer.reset] using h1
      | tick dt =>
        simp only [TimerOp.app, ChoiceTimer.update]
        by_cases hac : t.active = true
        · simp [hac]
          split <;> simpa using h1
        · simp at hac
          simpa [hac] using h1
    · cases o with
      | start => simp [TimerOp.app, ChoiceTimer.start, h1]
      | reset => simp [TimerOp.app, ChoiceTimer.reset, h1]
      | tick dt =>
        have hdt : 0 ≤ dt := ho
        simp only [TimerOp.app, ChoiceTimer.update]
        by_cases hac : t.active = true
        · simp [hac]
          split <;> simp <;> linarith
        · simp at hac
          simpa [hac] using h2
    · exact hwf'

/-- Claim C4, amended: over every start/tick/reset sequence with non-negative
    deltas on a timer of non-negative duration, the OBSERVABLE remaining time
    get_remaining() = max(0, time_left) stays within [0, duration] (the raw
    time_left field itself can dip below zero on the expiring tick, see
    c4_counterexample); and a tick on an inactive timer changes nothing and
    reports no expiry. -/
theorem c4_remaining_clamped (d : ℚ) (hd : 0 ≤ d) (ops : List TimerOp)
    (hops : ∀ o ∈ ops, o.wf) :
    (0 ≤ (ops.foldl TimerOp.app (ChoiceTimer.new d)).get_remaining ∧
     (ops.foldl TimerOp.app (ChoiceTimer.new d)).get_remaining ≤
       (ops.foldl TimerOp.app (ChoiceTimer.new d)).duration) ∧
    (∀ (u : ChoiceTimer) (x : ℚ), u.active = false → u.update x = (u, false)) := by
  have hinv := timer_fold_invariant d ops (ChoiceTimer.new d) rfl (le_refl d) hops
  refine ⟨⟨?_, ?_⟩, ?_⟩
  · exact le_max_left 0 _
  · rw [ChoiceTimer.get_remaining, hinv.1]
    exact max_le hd hinv.2
  · intro u x hu
    simp [ChoiceTimer.update, hu]

/-- Witness for c4_remaining_clamped: duration 2, operations start then
    tick 1, plus a concrete inactive timer left untouched by a tick. -/
theorem c4_remaining_clamped_witness :
    (0 ≤ (([TimerOp.start, TimerOp.tick 1].foldl TimerOp.app (ChoiceTimer.new 2)).get_remaining) ∧
     ([TimerOp.start, TimerOp.tick 1].foldl TimerOp.app (ChoiceTimer.new 2)).get_remaining ≤
       ([TimerOp.start, TimerOp.tick 1].foldl TimerOp.app (ChoiceTimer.new 2)).duration) ∧
    (ChoiceTimer.mk 2 1 false).update 5 = (ChoiceTimer.mk 2 1 false, false) := by
  have h := c4_remaining_clamped 2 (by norm_num) [TimerOp.start, TimerOp.tick 1]
    (by intro o ho; fin_cases ho <;> simp [TimerOp.wf])
  exact ⟨h.1, h.2 (ChoiceTimer.mk 2 1 false) 5 rfl⟩

/-
  Claim C6: conditional-target resolution at relationship value 0.
-/

/-- Claim C6: selecting an option that carries target_positive and
    target_negative (and no direct target) while the relationship value at the
    moment of evaluation — i.e. after the option's points were added — equals
    0 injects a scene jump to the POSITIVE target, because apply_choice tests
    rel_value >= 0 (classes.py 330-335). -/
theorem c6_conditional_zero_goes_positive
    (s : DialogueSystem) (cl : Entry) (j : Nat) (c : ChoiceOpt) (p q : String)
    (v : Int)
    (h1 : s.current_line = some cl)
    (h2 : cl.choices.get? j = some c)
    (h3 : c.target = none)
    (h4 : c.target_positive = some p)
    (h5 : c.target_negative = some q)
    (h6 : s.relationship = some v)
    (h7 : v + c.points.getD 0 = 0) :
    (s.applyChoice j).dialogue_lines =
      pyInsert s.dialogue_lines (s.index + 1) (sceneJumpEntry p) ∧
    (s.applyChoice j).relationship = some 0 := by
  simp only [DialogueSystem.applyChoice, h1, h2, h3, h4, h5, h6]
  simp only [Option.map_some, DialogueSystem.relValue, DialogueSystem.insertSceneJump]
  simp [h7]

/-- An option carrying 5 points and a positive/negative conditional target. -/
def condOpt : ChoiceOpt := .mk "Sorry." (some 5) none (some "good") (some "bad") [] none

/-- A choice entry holding condOpt. -/
def condChoice : Entry := .mk (some "choice") none none none none none none none [condOpt]

/-- Engine state showing condChoice with an attached relationship value -5. -/
def c6State : DialogueSystem :=
  ((DialogueSystem.init [condChoice] (some (-5)) false).startLine).1

/-- Witness for c6_conditional_zero_goes_positive: score -5 plus 5 points is
    exactly 0, and the injected jump goes to "good". -/
theorem c6_conditional_zero_goes_positive_witness :
    (c6State.applyChoice 0).dialogue_lines =
      pyInsert c6State.dialogue_lines (c6State.index + 1) (sceneJumpEntry "good") ∧
    (c6State.applyChoice 0).relationship = some 0 := by
  exact c6_conditional_zero_goes_positive c6State condChoice 0 condOpt "good" "bad"
    (-5) rfl rfl rfl rfl rfl rfl (by decide)

/-
  Frame lemmas: which fields each engine operation can touch.
-/

theorem cnr_fields (s : DialogueSystem) (e : Entry) :
    (s.checkNameReveal e).index = s.index ∧
    (s.checkNameReveal e).relationship = s.relationship ∧
    (s.checkNameReveal e).dialogue_lines = s.dialogue_lines ∧
    (s.checkNameReveal e).hasTimerClass = s.hasTimerClass ∧
    (s.checkNameReveal e).current_line = s.current_line ∧
    (s.checkNameReveal e).waiting = s.waiting ∧
    (s.checkNameReveal e).choice_timer = s.choice_timer ∧
    (s.checkNameReveal e).selected_choice = s.selected_choice ∧
    (s.checkNameReveal e).image_screen_active = s.image_screen_active := by
  unfold DialogueSystem.checkNameReveal
  split
  · simp
  · dsimp only
    split_ifs <;> simp

theorem cnr_nmPlayer (s : DialogueSystem) (e : Entry) :
    (s.checkNameReveal e).nmPlayer = s.nmPlayer ∨
      (s.checkNameReveal e).nmPlayer = "Vera" := by
  unfold DialogueSystem.checkNameReveal
  split
  · simp
  · dsimp only
    split_ifs <;> simp

theorem cnr_nmPartner (s : DialogueSystem) (e : Entry) :
    (s.checkNameReveal e).nmPartner = s.nmPartner ∨
      (s.checkNameReveal e).nmPartner = "Ellie" := by
  unfold DialogueSystem.checkNameReveal
  split
  · simp
  · dsimp only
    split_ifs <;> simp

theorem startLine_index (s : DialogueSystem) : (s.startLine).1.index = s.index := by
  unfold DialogueSystem.startLine
  split
  · rfl
  · dsimp only
    split_ifs <;> (try split) <;> simp [(cnr_fields _ _).1]

theorem startLine_rel (s : DialogueSystem) :
    (s.startLine).1.relationship = s.relationship := by
  unfold DialogueSystem.startLine
  split
  · rfl
  · dsimp only
    split_ifs <;> (try split) <;> simp [(cnr_fields _ _).2.1]

theorem startLine_hasTC (s : DialogueSystem) :
    (s.startLine).1.hasTimerClass = s.hasTimerClass := by
  unfold DialogueSystem.startLine
  split
  · rfl
  · dsimp only
    split_ifs <;> (try split) <;> simp [(cnr_fields _ _).2.2.2.1]

theorem startLine_nmPlayer (s : DialogueSystem) (h : s.nmPlayer = "Vera") :
    (s.startLine).1.nmPlayer = "Vera" := by
  unfold DialogueSystem.startLine
  split
  · simpa using h
  · dsimp only
    have hv : ∀ e : Entry,
        (DialogueSystem.checkNameReveal { s with current_line := some e } e).nmPlayer =
          "Vera" := by
      intro e
      rcases cnr_nmPlayer { s with current_line := some e } e with hc | hc
      · rw [hc]; simpa using h
      · exact hc
    split_ifs <;> (try split) <;> simp [hv]

theorem startLine_nmPartner (s : DialogueSystem) (h : s.nmPartner = "Ellie") :
    (s.startLine).1.nmPartner = "Ellie" := by
  unfold DialogueSystem.startLine
  split
  · simpa using h
  · dsimp only
    have hv : ∀ e : Entry,
        (DialogueSystem.checkNameReveal { s with current_line := some e } e).nmPartner =
          "Ellie" := by
      intro e
      rcases cnr_nmPartner { s with current_line := some e } e with hc | hc
      · rw [hc]; simpa using h
      · exact hc
    split_ifs <;> (try split) <;> simp [hv]

theorem applyChoice_fields (s : DialogueSystem) (ci : Nat) :
    (s.applyChoice ci).index = s.index ∧
    (s.applyChoice ci).nmPlayer = s.nmPlayer ∧
    (s.applyChoice ci).nmPartner = s.nmPartner ∧
    (s.applyChoice ci).current_line = s.current_line ∧
    (s.applyChoice ci).hasTimerClass = s.hasTimerClass ∧
    (s.applyChoice ci).choice_timer = s.choice_timer ∧
    (s.applyChoice ci).selected_choice = s.selected_choice ∧
    (s.applyChoice ci).image_screen_active = s.image_screen_active := by
  unfold DialogueSystem.applyChoice
  split
  · simp
  · split
    · simp
    · dsimp only
      split
      · simp [DialogueSystem.insertSceneJump]
      · split
        · split_ifs <;> simp [DialogueSystem.insertSceneJump]
        · split_ifs <;> simp

theorem applyChoice_rel_none (s : DialogueSystem) (ci : Nat)
    (h : s.relationship = none) : (s.applyChoice ci).relationship = none := by
  unfold DialogueSystem.applyChoice
  split
  · exact h
  · split
    · exact h
    · dsimp only
      split
      · simp [DialogueSystem.insertSceneJump, h]
      · split
        · split_ifs <;> simp [DialogueSystem.insertSceneJump, h]
        · split_ifs <;> simp [h]

theorem update_index_ge (s : DialogueSystem) (dt : ℚ) (busy : Bool) :
    s.index ≤ ((s.update dt busy).1).index := by
  unfold DialogueSystem.update
  split
  · simp
  · dsimp only
    split_ifs <;> (try split) <;> (try split_ifs) <;>
      simp [startLine_index, (applyChoice_fields _ _).1]

theorem update_rel_none (s : DialogueSystem) (dt : ℚ) (busy : Bool)
    (h : s.relationship = none) : ((s.update dt busy).1).relationship = none := by
  unfold DialogueSystem.update
  split
  · exact h
  · dsimp only
    split_ifs <;> (try split) <;> (try split_ifs) <;>
      simp [startLine_rel, applyChoice_rel_none, h]

theorem update_nmPlayer (s : DialogueSystem) (dt : ℚ) (busy : Bool)
    (h : s.nmPlayer = "Vera") : ((s.update dt busy).1).nmPlayer = "Vera" := by
  unfold DialogueSystem.update
  split
  · exact h
  · dsimp only
    split_ifs <;> (try split) <;> (try split_ifs) <;>
      simp [startLine_nmPlayer, (applyChoice_fields _ _).2.1, h]

theorem update_nmPartner (s : DialogueSystem) (dt : ℚ) (busy : Bool)
    (h : s.nmPartner = "Ellie") : ((s.update dt busy).1).nmPartner = "Ellie" := by
  unfold DialogueSystem.update
  split
  · exact h
  · dsimp only
    split_ifs <;> (try split) <;> (try split_ifs) <;>
      simp [startLine_nmPartner, (applyChoice_fields _ _).2.2.1, h]

theorem clickChoice_rel_none (s : DialogueSystem) (ci : Nat)
    (h : s.relationship = none) : ((s.clickChoice ci).1).relationship = none := by
  unfold DialogueSystem.clickChoice
  split
  · exact h
  · split_ifs
    · rw [startLine_rel]
      exact applyChoice_rel_none _ _ h
    · exact h

theorem clickChoice_nmPlayer (s : DialogueSystem) (ci : Nat)
    (h : s.nmPlayer = "Vera") : ((s.clickChoice ci).1).nmPlayer = "Vera" := by
  unfold DialogueSystem.clickChoice
  split
  · exact h
  · split_ifs
    · apply startLine_nmPlayer
      rw [(applyChoice_fields _ _).2.1]
      simpa using h
    · exact h

theorem clickChoice_nmPartner (s : DialogueSystem) (ci : Nat)
    (h : s.nmPartner = "Ellie") : ((s.clickChoice ci).1).nmPartner = "Ellie" := by
  unfold DialogueSystem.clickChoice
  split
  · exact h
  · split_ifs
    · apply startLine_nmPartner
      rw [(applyChoice_fields _ _).2.2.1]
      simpa using h
    · exact h

theorem click_rel_none (s : DialogueSystem) (pg : Bool) (r : Option Nat)
    (h : s.relationship = none) : ((s.click pg r).1).relationship = none := by
  unfold DialogueSystem.click
  split
  · exact h
  · dsimp only
    split_ifs
    · rw [startLine_rel]; exact h
    · split
      · exact clickChoice_rel_none _ _ h
      · exact h
    · rw [startLine_rel]; exact h

theorem click_nmPlayer (s : DialogueSystem) (pg : Bool) (r : Option Nat)
    (h : s.nmPlayer = "Vera") : ((s.click pg r).1).nmPlayer = "Vera" := by
  unfold DialogueSystem.click
  split
  · exact h
  · dsimp only
    split_ifs
    · exact startLine_nmPlayer _ (by simpa using h)
    · split
      · exact clickChoice_nmPlayer _ _ h
      · exact h
    · exact startLine_nmPlayer _ (by simpa using h)

theorem click_nmPartner (s : DialogueSystem) (pg : Bool) (r : Option Nat)
    (h : s.nmPartner = "Ellie") : ((s.click pg r).1).nmPartner = "Ellie" := by
  unfold DialogueSystem.click
  split
  · exact h
  · dsimp only
    split_ifs
    · exact startLine_nmPartner _ (by simpa using h)
    · split
      · exact clickChoice_nmPartner _ _ h
      · exact h
    · exact startLine_nmPartner _ (by simpa using h)

/-
  Claim C7: default option on timer expiry is applied exactly once.
-/

theorem dsRun_index_ge (inputs : List (ℚ × Bool)) :
    ∀ s : DialogueSystem, s.index ≤ (dsRun s inputs).index := by
  induction inputs with
  | nil => intro s; simp [dsRun]
  | cons p rest ih =>
    intro s
    rw [dsRun, List.foldl_cons]
    exact le_trans (update_index_ge s p.1 p.2) (ih _)

theorem countDefaults_after (i0 : Nat) (inputs : List (ℚ × Bool)) :
    ∀ s : DialogueSystem, i0 < s.index → countDefaults i0 s inputs = 0 := by
  induction inputs with
  | nil => intro s _; rfl
  | cons p rest ih =>
    intro s h
    have h2 := ih ((s.update p.1 p.2).1)
      (lt_of_lt_of_le h (update_index_ge s p.1 p.2))
    simp only [countDefaults, h2, Nat.add_zero]
    rw [if_neg]
    rintro ⟨_, hidx⟩
    omega

theorem c7_phase1 (inputs : List (ℚ × Bool)) :
    ∀ (s : DialogueSystem) (cl : Entry) (tm : ChoiceTimer),
      s.current_line = some cl → cl.etype.getD "line" = "choice" →
      s.choice_timer = some tm → tm.active = true → 0 < tm.time_left →
      s.selected_choice = none →
      (∀ p ∈ inputs, 0 ≤ p.1) →
      tm.time_left ≤ (inputs.map Prod.fst).sum →
      countDefaults s.index s inputs = 1 ∧ s.index < (dsRun s inputs).index := by
  induction inputs with
  | nil =>
    intro s cl tm _ _ _ _ h5 _ _ h8
    exfalso
    simp at h8
    linarith
  | cons p rest ih =>
    intro s cl tm h1 h2 h3 h4 h5 h6 h7 h8
    have h7' : ∀ q ∈ rest, 0 ≤ q.1 := fun q hq => h7 q (by simp [hq])
    by_cases hexp : tm.time_left - p.1 ≤ 0
    · -- this tick expires the timer: the default is applied here
      have hupd2 : (tm.update p.1).2 = true := by
        simp [ChoiceTimer.update, h4, hexp]
      have hfired : defaultFired s p.1 = true := by
        simp [defaultFired, h1, h3, h2, h6, hupd2]
      have hidx : ((s.update p.1 p.2).1).index = s.index + 1 := by
        unfold DialogueSystem.update
        simp [h1, h2, h3, h6, hupd2, startLine_index, (applyChoice_fields _ _).1]
      refine ⟨?_, ?_⟩
      · simp only [countDefaults]
        rw [if_pos ⟨hfired, trivial⟩,
          countDefaults_after _ rest _ (by rw [hidx]; omega)]
      · rw [dsRun, List.foldl_cons]
        calc s.index < s.index + 1 := by omega
        _ = ((s.update p.1 p.2).1).index := hidx.symm
        _ ≤ _ := dsRun_index_ge rest _
    · -- the timer keeps running with a smaller time_left
      have hupd2 : tm.update p.1 = ({ tm with time_left := tm.time_left - p.1 }, false) := by
        simp [ChoiceTimer.update, h4, hexp]
      have hstep : (s.update p.1 p.2).1 =
          { s with choice_timer := some { tm with time_left := tm.time_left - p.1 } } := by
        unfold DialogueSystem.update
        simp [h1, h2, h3, hupd2]
      have hfired : defaultFired s p.1 = false := by
        simp [defaultFired, h1, h3, hupd2]
      have hrest : tm.time_left - p.1 ≤ (rest.map Prod.fst).sum := by
        simp only [List.map_cons, List.sum_cons] at h8
        linarith
      have ihres := ih
        { s with choice_timer := some { tm with time_left := tm.time_left - p.1 } }
        cl { tm with time_left := tm.time_left - p.1 }
        (by simpa using h1) h2 (by simp) (by simpa using h4)
        (by dsimp only; linarith [not_le.mp hexp]) (by simpa using h6) h7' hrest
      refine ⟨?_, ?_⟩
      · simp only [countDefaults]
        rw [if_neg (by simp [hfired]), hstep]
        simpa using ihres.1
      · rw [dsRun, List.foldl_cons, hstep]
        simpa using ihres.2

/-- Claim C7: for a Choice entry with a running timer and no prior selection,
    any frame trace of non-negative deltas whose sum reaches the remaining
    time applies default option 0 exactly once — on the expiring frame — and
    the engine then advances past the choice, so no later frame applies it at
    that cursor position again (classes.py 278-286). -/
theorem c7_default_applied_once (s : DialogueSystem) (cl : Entry)
    (tm : ChoiceTimer) (inputs : List (ℚ × Bool))
    (h1 : s.current_line = some cl) (h2 : cl.etype.getD "line" = "choice")
    (h3 : s.choice_timer = some tm) (h4 : tm.active = true)
    (h5 : 0 < tm.time_left) (h6 : s.selected_choice = none)
    (h7 : ∀ p ∈ inputs, 0 ≤ p.1)
    (h8 : tm.time_left ≤ (inputs.map Prod.fst).sum) :
    countDefaults s.index s inputs = 1 ∧ s.index < (dsRun s inputs).index :=
  c7_phase1 inputs s cl tm h1 h2 h3 h4 h5 h6 h7 h8

/-- A choice entry with a 2-second timer. -/
def timedChoice : Entry :=
  .mk (some "choice") none none none (some 2) none none none [cOptA, cOptB]

/-- Engine state showing timedChoice with the timer started (timer class
    supplied). -/
def c7State : DialogueSystem :=
  ((DialogueSystem.init [timedChoice, nHello] none true).startLine).1

/-- Witness for c7_default_applied_once: frames of 1s and 1.5s cross the
    2-second timer; the default fires exactly once and the cursor moves on. -/
theorem c7_default_applied_once_witness :
    countDefaults c7State.index c7State [(1, false), (3/2, false)] = 1 ∧
    c7State.index < (dsRun c7State [(1, false), (3/2, false)]).index := by
  exact c7_default_applied_once c7State timedChoice (ChoiceTimer.mk 2 2 true)
    [(1, false), (3/2, false)] rfl rfl rfl rfl (by norm_num) rfl
    (by intro q hq; fin_cases hq <;> norm_num) (by norm_num)

/-
  Claim C8: unknown entry types.
-/

/-- Counterexample to claim C8 as stated: with an entry of unknown type
    current, a tick (update) does NOT advance the cursor — the engine state is
    returned unchanged — so "the cursor advances past it on the next tick" is
    false; only an explicit click/advance moves past it (classes.py 253-293
    has no branch for unknown types). -/
theorem c8_tick_does_not_advance :
    c8State.index = 0 ∧ c8State.current_line = some futureEntry ∧
    c8State.update 1 false = (c8State, none) := by
  exact ⟨rfl, rfl, rfl⟩

/-- Claim C8, amended: an entry whose type discriminant is unknown never
    raises (start_line returns it as-is after only the name-reveal check), a
    tick leaves the engine state entirely unchanged, and the cursor advances
    past it on the next click/advance call (classes.py 226-227, 253-293,
    548-554). -/
theorem c8_unknown_inert_click_advances (s : DialogueSystem) (cl : Entry)
    (ty : String) (h1 : s.current_line = some cl) (h2 : cl.etype = some ty)
    (h3 : ty ≠ "line") (h4 : ty ≠ "narration") (h5 : ty ≠ "choice")
    (h6 : ty ≠ "image_screen") (h7 : s.image_screen_active = false) :
    (∀ (dt : ℚ) (busy : Bool), s.update dt busy = (s, none)) ∧
    (∀ (pg : Bool) (r : Option Nat),
      s.click pg r = DialogueSystem.startLine { s with index := s.index + 1 }) := by
  constructor
  · intro dt busy
    unfold DialogueSystem.update
    simp [h1, h2, h3, h4, h5]
  · intro pg r
    unfold DialogueSystem.click
    simp [h1, h2, h5, h7]

/-- Witness for c8_unknown_inert_click_advances at the future_feature entry. -/
theorem c8_unknown_inert_click_advances_witness :
    (c8State.update 1 false = (c8State, none)) ∧
    (c8State.click true none =
      DialogueSystem.startLine { c8State with index := c8State.index + 1 }) := by
  have h := c8_unknown_inert_click_advances c8State futureEntry "future_feature"
    rfl rfl (by decide) (by decide) (by decide) (by decide) rfl
  exact ⟨h.1 1 false, h.2 true none⟩

/-
  Claim C9: name reveals.
-/

/-- Counterexample to claim C9 as stated: the reveal does not survive the
    scene transition — after GameManager.next_scene the fresh DialogueSystem's
    name_map is back to the canonical "Player" (classes.py 634-639 constructs
    a new DialogueSystem, whose __init__ resets name_map, lines 150-153). -/
theorem c9_reveal_reset_on_next_scene :
    c9Run.dialogue_system.nmPlayer = "Vera" ∧
    c9Run.nextScene.dialogue_system.nmPlayer = "Player" := by
  exact ⟨by decide, by decide⟩

/-- Claim C9, amended: once a trigger line has set a revealed display name,
    every further engine operation of the same scene's DialogueSystem (frames,
    choice selections, clicks) preserves it — it never reverts within the
    scene; loading a later scene constructs a fresh DialogueSystem whose
    display names are reset to canonical (see c9_reveal_reset_on_next_scene). -/
theorem c9_reveal_persists_within_scene (s : DialogueSystem) (ops : List DSOp) :
    (s.nmPlayer = "Vera" → (ops.foldl DSOp.app s).nmPlayer = "Vera") ∧
    (s.nmPartner = "Ellie" → (ops.foldl DSOp.app s).nmPartner = "Ellie") := by
  induction ops generalizing s with
  | nil => exact ⟨id, id⟩
  | cons o rest ih =>
    refine ⟨fun h => ?_, fun h => ?_⟩
    · rw [List.foldl_cons]
      apply (ih (DSOp.app s o)).1
      cases o with
      | frame dt b => exact update_nmPlayer _ _ _ h
      | selectOpt i => exact clickChoice_nmPlayer _ _ h
      | clickAt pg r => exact click_nmPlayer _ _ _ h
    · rw [List.foldl_cons]
      apply (ih (DSOp.app s o)).2
      cases o with
      | frame dt b => exact update_nmPartner _ _ _ h
      | selectOpt i => exact clickChoice_nmPartner _ _ h
      | clickAt pg r => exact click_nmPartner _ _ _ h

/-- Engine state with both display names already revealed. -/
def c9Both : DialogueSystem :=
  { DialogueSystem.init [nHello] none false with
      nmPlayer := "Vera", nmPartner := "Ellie" }

/-- Witness for c9_reveal_persists_within_scene over a concrete trace. -/
theorem c9_reveal_persists_within_scene_witness :
    (([DSOp.frame 1 false, DSOp.clickAt true none].foldl DSOp.app c9Both).nmPlayer
        = "Vera") ∧
    (([DSOp.frame 1 false, DSOp.clickAt true none].foldl DSOp.app c9Both).nmPartner
        = "Ellie") := by
  have h := c9_reveal_persists_within_scene c9Both
    [DSOp.frame 1 false, DSOp.clickAt true none]
  exact ⟨h.1 rfl, h.2 rfl⟩

/-
  Claim C10: the GameManager wiring never connects the tracker.
-/

theorem nextScene_rel (gm : GameManager) :
    gm.nextScene.dialogue_system.relationship =
        gm.dialogue_system.relationship ∨
      gm.nextScene.dialogue_system.relationship = none := by
  unfold GameManager.nextScene
  dsimp only
  split
  · left; rfl
  · right
    dsimp only
    rw [startLine_rel]
    rfl

theorem nextScene_tracker (gm : GameManager) :
    gm.nextScene.relationship_tracker = gm.relationship_tracker := by
  unfold GameManager.nextScene
  dsimp only
  split <;> rfl

theorem update_gm_rel_none (gm : GameManager) (dt : ℚ) (busy : Bool)
    (h : gm.dialogue_system.relationship = none) :
    (gm.update dt busy).dialogue_system.relationship = none := by
  unfold GameManager.update
  dsimp only
  split_ifs
  all_goals try exact h
  all_goals apply update_rel_none
  all_goals try exact h
  all_goals
    cases nextScene_rel gm with
    | inl h2 => rw [h2]; exact h
    | inr h2 => exact h2

theorem update_gm_tracker (gm : GameManager) (dt : ℚ) (busy : Bool) :
    (gm.update dt busy).relationship_tracker = gm.relationship_tracker := by
  unfold GameManager.update GameManager.nextScene
  dsimp only
  split_ifs <;> (try split) <;> rfl

theorem click_gm_rel_none (gm : GameManager) (r : Option Nat)
    (h : gm.dialogue_system.relationship = none) :
    (gm.click r).dialogue_system.relationship = none := by
  unfold GameManager.click
  dsimp only
  exact click_rel_none _ _ _ h

theorem click_gm_tracker (gm : GameManager) (r : Option Nat) :
    (gm.click r).relationship_tracker = gm.relationship_tracker := rfl

/-- Claim C10: GameManager builds every per-scene DialogueSystem without the
    shared RelationshipTracker (classes.py 579-583 and 634-638 pass neither
    relationship_tracker nor choice_timer_class), so over every operation
    trace of the game loop the engine's tracker view stays none, the
    rel_value used by lock-condition and conditional-target evaluation is 0,
    and the shared tracker object keeps its initial score. -/
theorem c10_tracker_disconnected (first : Scene) (rest : List Scene)
    (tr : RelationshipTracker) (ops : List GMOp) :
    ((ops.foldl GMOp.app (GameManager.init first rest tr)).dialogue_system.relationship
        = none) ∧
    ((ops.foldl GMOp.app (GameManager.init first rest tr)).dialogue_system.relValue
        = 0) ∧
    ((ops.foldl GMOp.app (GameManager.init first rest tr)).relationship_tracker
        = tr) := by
  have key : ∀ (ops : List GMOp) (gm : GameManager),
      gm.dialogue_system.relationship = none →
      ((ops.foldl GMOp.app gm).dialogue_system.relationship = none ∧
       (ops.foldl GMOp.app gm).relationship_tracker = gm.relationship_tracker) := by
    intro ops
    induction ops with
    | nil => intro gm h; exact ⟨h, rfl⟩
    | cons o os ih =>
      intro gm h
      rw [List.foldl_cons]
      have hrel : (GMOp.app gm o).dialogue_system.relationship = none := by
        cases o with
        | frame dt b => exact update_gm_rel_none gm dt b h
        | clickAt r => exact click_gm_rel_none gm r h
        | scene =>
          rcases nextScene_rel gm with h2 | h2
          · rw [GMOp.app, h2]; exact h
          · exact h2
      have htr : (GMOp.app gm o).relationship_tracker = gm.relationship_tracker := by
        cases o with
        | frame dt b => exact update_gm_tracker gm dt b
        | clickAt r => exact click_gm_tracker gm r
        | scene => exact nextScene_tracker gm
      obtain ⟨ha, hb⟩ := ih (GMOp.app gm o) hrel
      exact ⟨ha, by rw [hb, htr]⟩
  have hinit : (GameManager.init first rest tr).dialogue_system.relationship = none := by
    unfold GameManager.init
    dsimp only
    rw [startLine_rel]
    rfl
  obtain ⟨ha, hb⟩ := key ops _ hinit
  exact ⟨ha, by simp [DialogueSystem.relValue, ha], hb⟩

/-
  Claims C1 and C2: end-to-end behaviour of the game wiring.
-/

/-- Claim C1 (code-bug evidence): running the spec's end-to-end scenario
    through the game wiring — narration, then selecting option 0 of the
    choice carrying 5 points and target "sceneB", then clicking past the
    inert scene_jump entry and three more frames — leaves the shared
    tracker's score at 0 (DialogueSystem got no tracker), keeps the scene
    index at 0 and the current scene at "sceneA" with the session still
    active: the relationship never becomes 5 and "sceneB" is never loaded. -/
theorem c1_wiring_bug :
    c1Run.relationship_tracker.score = 0 ∧
    c1Run.current_scene_index = 0 ∧
    c1Run.current_scene.id = some "sceneA" ∧
    c1Run.active = true := by
  exact ⟨by decide, by decide, by decide, by decide⟩

/-- Claim C2 (code-bug evidence): after selecting the option targeting
    "sceneGamma" the engine's current entry IS the synthetic scene_jump to
    "sceneGamma", yet ticking the manager loads nothing (scene stays
    "sceneAlpha"), and even the transition routine next_scene loads the
    next-in-list "sceneBeta", ignoring the jump target entirely. -/
theorem c2_scene_jump_not_consumed :
    c2Run.dialogue_system.current_line = some (sceneJumpEntry "sceneGamma") ∧
    (c2Run.update 1 false).current_scene_index = 0 ∧
    ((c2Run.update 1 false).update 1 false).current_scene.id = some "sceneAlpha" ∧
    c2Run.nextScene.current_scene.id = some "sceneBeta" ∧
    ¬ (c2Run.nextScene.current_scene.id = some "sceneGamma") := by
  exact ⟨rfl, by decide, by decide, by decide, by decide⟩

end Nightfall
